import Mathlib

/-!
Shallow embedding of the authentication/session core of the petz backend
(`src/db.py` and `src/app.py`).

Conventions of the embedding:
* Time (`datetime.datetime.now()`) is passed explicitly as a `Nat` timestamp in
  seconds; `datetime.timedelta(days=1)` is `86400`.
* Randomness (`os.urandom` inside `User._urlsafe_base_64`, `bcrypt.gensalt`) is
  passed explicitly: each operation that generates tokens or salts receives the
  generated strings as parameters.
* The SQLAlchemy table of `User` rows is a `List User`; `User.query.filter_by(x).first()`
  is `List.find?`; a commit of a mutated row is an in-place functional update of
  the first matching row.
* Python exceptions are `Except.error`; JSON error responses are also modelled
  as `Except.error` carrying the message of the `"error"` field.
-/

/-- Modelled from the spec: digests of the external `bcrypt` library (used by
`src/db.py`, which is in `src/`, but the library itself is not part of the
repository). A digest either parses as a salted adaptive hash (salt, cost
factor, derived key) or is malformed; `bcrypt.checkpw` raises
`ValueError("Invalid salt")` on a malformed digest. -/
inductive BcryptDigest where
  | valid (salt : String) (cost : Nat) (key : String)
  | malformed (raw : String)
deriving DecidableEq

/-- Modelled from the spec: the bcrypt key-derivation function, a deterministic
one-way function of password, salt and cost. The embedding uses a concrete
injective-in-the-password stand-in; one-wayness is not needed by any claim. -/
def bcrypt_kdf (password salt : String) (cost : Nat) : String :=
  toString cost ++ "$" ++ salt ++ "#" ++ password

/-- Modelled from the spec: `bcrypt.hashpw(password, gensalt(cost))` — the salt
produced by `gensalt` is passed explicitly. -/
def bcrypt_hashpw (password salt : String) (cost : Nat) : BcryptDigest :=
  .valid salt cost (bcrypt_kdf password salt cost)

/-- Modelled from the spec: `bcrypt.checkpw(password, digest)` — re-derives the
key with the digest's salt and cost and compares; raises
`ValueError("Invalid salt")` when the digest does not parse. -/
def bcrypt_checkpw (password : String) (digest : BcryptDigest) : Except String Bool :=
  match digest with
  | .malformed _ => .error "Invalid salt"
  | .valid salt cost key => .ok (bcrypt_kdf password salt cost == key)

/-- `Category` model (`src/db.py` lines 121-136): id and description; the
many-to-many membership lists live on the `User` side of the embedding. -/
structure Category where
  id : Nat
  description : String
deriving DecidableEq

/-- `Review` model (`src/db.py` lines 158-179). -/
structure Review where
  id : Nat
  rating : Int
  text : String
  date : Nat
  reviewee_id : Nat
deriving DecidableEq

/-- `User` model columns (`src/db.py` lines 21-46). `categories_h` and
`categories_o` are the relationship lists of `Category` rows. -/
structure User where
  id : Nat
  name : String
  username : String
  bio : Option String
  contact : String
  overall_rating : Option Rat
  reviews : List Review
  host : Bool
  owner : Bool
  categories_h : List Category
  categories_o : List Category
  available : Bool
  email : String
  password_digest : BcryptDigest
  session_token : String
  session_expiration : Nat
  update_token : String
deriving DecidableEq

/-- `User.renew_session` (`src/db.py` lines 91-100): stores a freshly generated
session token, sets the expiration one day from now, and stores a freshly
generated update token. The two `_urlsafe_base_64()` outputs are the explicit
parameters `new_session_token` and `new_update_token`. -/
def User.renew_session (u : User) (now : Nat)
    (new_session_token new_update_token : String) : User :=
  { u with
    session_token := new_session_token
    session_expiration := now + 86400
    update_token := new_update_token }

/-- `User.__init__` (`src/db.py` lines 48-62): fills the profile and auth
columns, hashes the password with `bcrypt.hashpw(..., gensalt(rounds=13))`, and
calls `renew_session`. Columns not set by `__init__` take their database
defaults (`id` autoincrement is the explicit parameter, rating and the
relationship lists start empty). -/
def User.init (id : Nat) (name username : String) (bio : Option String)
    (contact : String) (host owner available : Bool) (email password : String)
    (salt : String) (now : Nat) (tok1 tok2 : String) : User :=
  User.renew_session
    { id := id
      name := name
      username := username
      bio := bio
      contact := contact
      overall_rating := none
      reviews := []
      host := host
      owner := owner
      categories_h := []
      categories_o := []
      available := available
      email := email
      password_digest := bcrypt_hashpw password salt 13
      session_token := ""
      session_expiration := 0
      update_token := "" }
    now tok1 tok2

/-- `User.verify_password` (`src/db.py` lines 102-106): a bare
`bcrypt.checkpw(password, self.password_digest)` with no exception handling. -/
def User.verify_password (u : User) (password : String) : Except String Bool :=
  bcrypt_checkpw password u.password_digest

/-- `User.verify_session_token` (`src/db.py` lines 108-112):
`session_token == self.session_token and now < self.session_expiration`. -/
def User.verify_session_token (u : User) (session_token : String) (now : Nat) : Bool :=
  session_token == u.session_token && decide (now < u.session_expiration)

/-- `User.verify_update_token` (`src/db.py` lines 114-118). -/
def User.verify_update_token (u : User) (update_token : String) : Bool :=
  update_token == u.update_token

/-- `Review.serialize` output (`src/db.py` lines 181-192). -/
structure ReviewJson where
  id : Nat
  rating : Int
  text : String
  date : Nat
  reviewee_id : Nat
deriving DecidableEq

/-- `Review.serialize` (`src/db.py` lines 181-192). -/
def Review.serialize (r : Review) : ReviewJson :=
  { id := r.id
    rating := r.rating
    text := r.text
    date := r.date
    reviewee_id := r.reviewee_id }

/-- `User.serialize` output (`src/db.py` lines 64-83): exactly the keys of the
returned dictionary. -/
structure UserJson where
  id : Nat
  name : String
  username : String
  bio : Option String
  contact : String
  overall_rating : Option Rat
  reviews : List ReviewJson
  host : Bool
  owner : Bool
  categories_h : List String
  categories_o : List String
  available : Bool
deriving DecidableEq

/-- `User.serialize` (`src/db.py` lines 64-83). -/
def User.serialize (u : User) : UserJson :=
  { id := u.id
    name := u.name
    username := u.username
    bio := u.bio
    contact := u.contact
    overall_rating := u.overall_rating
    reviews := u.reviews.map Review.serialize
    host := u.host
    owner := u.owner
    categories_h := u.categories_h.map Category.description
    categories_o := u.categories_o.map Category.description
    available := u.available }

/-- Functional update of the first row matching `p` — the effect of mutating
the row returned by `.first()` and committing. -/
def update_first (p : User → Bool) (f : User → User) : List User → List User
  | [] => []
  | u :: rest => if p u then f u :: rest else u :: update_first p f rest

/-- Modelled from the spec: `users_dao.get_user_by_email` — the `users_dao`
module is imported by `src/app.py` but missing from `src/`; §6 of the spec
gives the persistence contract `find_by_email(email) -> identity | None`. -/
def users_dao.get_user_by_email (store : List User) (email : String) : Option User :=
  store.find? (fun u => u.email == email)

/-- Modelled from the spec: `users_dao.get_user_by_session_token` — missing
`users_dao` module; spec §6 `find_by_session_token(token) -> identity | None`,
exact match on the current value. -/
def users_dao.get_user_by_session_token (store : List User) (session_token : String) :
    Option User :=
  store.find? (fun u => u.session_token == session_token)

/-- Modelled from the spec: `users_dao.get_user_by_update_token` — missing
`users_dao` module; spec §6 `find_by_update_token(token) -> identity | None`,
exact match on the current value. -/
def users_dao.get_user_by_update_token (store : List User) (update_token : String) :
    Option User :=
  store.find? (fun u => u.update_token == update_token)

/-- Modelled from the spec: `users_dao.verify_credentials(email, password)` —
missing `users_dao` module; spec §4.2 `login`: look up by email, fail if not
found or `verify_password` fails, no mutation. Returns the success flag and the
found user; a `bcrypt` exception propagates. -/
def users_dao.verify_credentials (store : List User) (email password : String) :
    Except String (Bool × Option User) :=
  match users_dao.get_user_by_email store email with
  | none => .ok (false, none)
  | some u => (u.verify_password password).map (fun b => (b, some u))

/-- Modelled from the spec: `users_dao.create_user` — missing `users_dao`
module; spec §4.2 `register`: fail if the email is already present, otherwise
build a `User` (which hashes the password and issues the first token triple)
and persist it. Returns the created flag, the user, and the new store. -/
def users_dao.create_user (store : List User) (id : Nat) (name username : String)
    (bio : Option String) (contact : String) (host owner available : Bool)
    (email password salt : String) (now : Nat) (tok1 tok2 : String) :
    Bool × User × List User :=
  match users_dao.get_user_by_email store email with
  | some u => (false, u, store)
  | none =>
    let u := User.init id name username bio contact host owner available
      email password salt now tok1 tok2
    (true, u, store ++ [u])

/-- Modelled from the spec: `users_dao.renew_session(update_token)` — missing
`users_dao` module; spec §4.2 `renew`: look up the identity by exact match on
`update_token`, return nothing if no match, otherwise call the user's
`renew_session` (fresh tokens `tok1`, `tok2`), persist and return it. -/
def users_dao.renew_session (store : List User) (update_token : String) (now : Nat)
    (tok1 tok2 : String) : Option (User × List User) :=
  match users_dao.get_user_by_update_token store update_token with
  | none => none
  | some u =>
    some (u.renew_session now tok1 tok2,
      update_first (fun v => v.update_token == update_token)
        (fun v => v.renew_session now tok1 tok2) store)

/-- The token triple returned by `login` (`src/app.py` lines 370-376),
`update_session` (lines 394-400) and inside the `register_account` response
(lines 343-350); `session_expiration` is stringified as in the source. -/
structure TokenResponse where
  session_token : String
  session_expiration : String
  update_token : String
deriving DecidableEq

/-- The `register_account` success response (`src/app.py` lines 343-350). -/
structure RegisterResponse where
  user : UserJson
  session_token : String
  session_expiration : String
  update_token : String
deriving DecidableEq

/-- `register_account` (`src/app.py` lines 306-350), from the
`users_dao.create_user` call on: the field-presence checks on the parsed JSON
body are HTTP-layer concerns taken as already passed. -/
def register_account (store : List User) (id : Nat) (name username : String)
    (bio : Option String) (contact : String) (host owner available : Bool)
    (email password salt : String) (now : Nat) (tok1 tok2 : String) :
    Except String (RegisterResponse × List User) :=
  match users_dao.create_user store id name username bio contact host owner available
      email password salt now tok1 tok2 with
  | (false, _, _) => .error "Incorrect email or password"
  | (true, u, store2) =>
    .ok ({ user := u.serialize
           session_token := u.session_token
           session_expiration := toString u.session_expiration
           update_token := u.update_token }, store2)

/-- `login` (`src/app.py` lines 353-376): verify the credentials and, on
success, return the token triple currently stored on the record; no mutation,
so the store comes back unchanged. -/
def login (store : List User) (email password : String) :
    Except String TokenResponse × List User :=
  match users_dao.verify_credentials store email password with
  | .error e => (.error e, store)
  | .ok (false, _) => (.error "Incorrect email or password", store)
  | .ok (true, none) => (.error "Incorrect email or password", store)
  | .ok (true, some u) =>
    (.ok { session_token := u.session_token
           session_expiration := toString u.session_expiration
           update_token := u.update_token }, store)

/-- `update_session` (`src/app.py` lines 379-400): renew via
`users_dao.renew_session` and return the new token triple; the bearer-token
extraction is an HTTP-layer concern taken as already passed. -/
def update_session (store : List User) (update_token : String) (now : Nat)
    (tok1 tok2 : String) : Except String TokenResponse × List User :=
  match users_dao.renew_session store update_token now tok1 tok2 with
  | none => (.error "Invalid update token", store)
  | some (u, store2) =>
    (.ok { session_token := u.session_token
           session_expiration := toString u.session_expiration
           update_token := u.update_token }, store2)

/-- `secret_message` (`src/app.py` lines 403-418), from the
`users_dao.get_user_by_session_token` call on. The guard is transcribed as
written in the source: `if user is None or user.verify_session_token(...)`
returns the error, otherwise the secret message is returned. -/
def secret_message (store : List User) (session_token : String) (now : Nat) :
    Except String String :=
  match users_dao.get_user_by_session_token store session_token with
  | none => .error "Invalid session token"
  | some u =>
    if u.verify_session_token session_token now then .error "Invalid session token"
    else .ok "Wow we implemented session token!!"

/-- `logout` (`src/app.py` lines 421-438): look up by session token, fail if
not found or the token does not verify, otherwise set the row's
`session_expiration` to `now` and commit. -/
def logout (store : List User) (session_token : String) (now : Nat) :
    Except String String × List User :=
  match users_dao.get_user_by_session_token store session_token with
  | none => (.error "Invalid session token", store)
  | some u =>
    if u.verify_session_token session_token now then
      (.ok "User has successfully logged out",
        update_first (fun v => v.session_token == session_token)
          (fun v => { v with session_expiration := now }) store)
    else (.error "Invalid session token", store)

/-- Modelled from the spec: `verify_session(session_token) -> identity | None`
(spec §4.2) — look up by exact match on `session_token` and return the identity
only if found and the token verifies (`now` strictly before the expiration).
This is the composition `src/app.py` performs in the `logout` guard
(lines 430-432); no single function of the repository packages it. -/
def verify_session (store : List User) (session_token : String) (now : Nat) :
    Option User :=
  match users_dao.get_user_by_session_token store session_token with
  | none => none
  | some u => if u.verify_session_token session_token now then some u else none

/-! ### Shared lemmas about the store -/

/-- If `find?` locates a row and the update keeps it matching, the updated
store still locates exactly the updated row at the same position. -/
theorem find?_update_first (p : User → Bool) (f : User → User) (l : List User) (u : User)
    (hfind : l.find? p = some u) (hpf : p (f u) = true) :
    (update_first p f l).find? p = some (f u) := by
  induction l with
  | nil => simp at hfind
  | cons v rest ih =>
    cases hv : p v with
    | true =>
      rw [List.find?_cons_of_pos _ hv] at hfind
      injection hfind with h
      subst h
      simp only [update_first, hv, if_true]
      exact List.find?_cons_of_pos _ hpf
    | false =>
      rw [List.find?_cons_of_neg _ (by simp [hv])] at hfind
      simp only [update_first, hv, if_false, Bool.false_eq_true]
      rw [List.find?_cons_of_neg _ (by simp [hv])]
      exact ih hfind

/-- After rotating the update token of the (unique) row holding `utok` to a
fresh value `t2 ≠ utok`, no row of the store matches `utok` any more. -/
theorem find?_update_first_renew_none (utok t1 t2 : String) (now : Nat) (l : List User)
    (hpw : l.Pairwise (fun a b => a.update_token ≠ b.update_token))
    (ht2 : t2 ≠ utok) :
    (update_first (fun v => v.update_token == utok)
        (fun v => v.renew_session now t1 t2) l).find?
      (fun v => v.update_token == utok) = none := by
  induction l with
  | nil => rfl
  | cons v rest ih =>
    rcases List.pairwise_cons.mp hpw with ⟨hhead, htail⟩
    cases hv : (v.update_token == utok) with
    | true =>
      have hvu : v.update_token = utok := by exact eq_of_beq hv
      simp only [update_first, hv, if_true]
      rw [List.find?_cons_of_neg _ (by simp [User.renew_session, ht2])]
      rw [List.find?_eq_none]
      intro x hx
      have hne : v.update_token ≠ x.update_token := hhead x hx
      simp only [beq_iff_eq]
      exact fun hxx => hne (hvu.trans hxx.symm)
    | false =>
      simp only [update_first, hv, if_false, Bool.false_eq_true]
      rw [List.find?_cons_of_neg _ (by simp [hv])]
      exact ih htail

/-- Inversion of a successful `logout`: the row was found, its token verified,
the message is the fixed success message and the store got the single
expiration update. -/
theorem logout_ok_inv (store : List User) (t : String) (now : Nat) (msg : String)
    (store2 : List User) (h : logout store t now = (.ok msg, store2)) :
    ∃ u, users_dao.get_user_by_session_token store t = some u ∧
      u.verify_session_token t now = true ∧
      msg = "User has successfully logged out" ∧
      store2 = update_first (fun v => v.session_token == t)
        (fun v => { v with session_expiration := now }) store := by
  unfold logout at h
  split at h
  · simp at h
  next u heq =>
    split at h
    next hv =>
      simp only [Prod.mk.injEq, Except.ok.injEq] at h
      exact ⟨u, heq, hv, h.1.symm, h.2.symm⟩
    next hv => simp at h

/-- Inversion of a successful `login`: the store is untouched and the response
is built from the found row's current triple. -/
theorem login_ok_inv (store : List User) (email password : String) (r : TokenResponse)
    (store2 : List User) (h : login store email password = (.ok r, store2)) :
    store2 = store ∧ ∃ u, users_dao.get_user_by_email store email = some u ∧
      u.verify_password password = .ok true ∧
      r = { session_token := u.session_token
            session_expiration := toString u.session_expiration
            update_token := u.update_token } := by
  unfold login at h
  split at h
  · simp at h
  · simp at h
  · simp at h
  next u heq =>
    simp only [Prod.mk.injEq, Except.ok.injEq] at h
    refine ⟨h.2.symm, u, ?_, ?_, h.1.symm⟩ <;>
    · unfold users_dao.verify_credentials at heq
      split at heq
      · simp at heq
      next v hfind =>
        cases hvp : v.verify_password password with
        | error e => rw [hvp] at heq; simp [Except.map] at heq
        | ok b =>
          rw [hvp] at heq
          simp only [Except.map, Except.ok.injEq, Prod.mk.injEq, Option.some.injEq] at heq
          first
          | exact heq.2 ▸ hfind
          | exact heq.2 ▸ (heq.1 ▸ hvp)

/-! ### Concrete records used to exercise the operations -/

/-- A registered user whose session expires at time `100`, with password
`pw123456` hashed under salt `SALT`. -/
def sample1 : User :=
  { id := 1
    name := "Ann"
    username := "ann"
    bio := none
    contact := "555"
    overall_rating := none
    reviews := []
    host := false
    owner := false
    categories_h := []
    categories_o := []
    available := false
    email := "a@x.com"
    password_digest := bcrypt_hashpw "pw123456" "SALT" 13
    session_token := "T1"
    session_expiration := 100
    update_token := "U1" }

/-- A user whose stored `password_digest` is not a well-formed bcrypt hash. -/
def sample_malformed : User :=
  { sample1 with
    id := 2
    email := "b@x.com"
    session_token := "T2"
    update_token := "U2"
    password_digest := .malformed "plaintext-oops" }

/-! ### Claims -/

/-- C1: the spec's `verify_session` contract — return the identity exactly when
a record with that `session_token` exists and `now` is strictly before its
`session_expiration` — is what `src/app.py`'s `secret_message` endpoint was
documented to enforce, but its guard is inverted: at a concrete store holding a
user with token `T1` expiring at `100`, the request with the valid token at
`now = 50` is answered with the `Invalid session token` error, while the same
request at `now = 200` (session already expired) is answered with the secret
message. -/
theorem secret_message_inverts_session_check :
    secret_message [sample1] "T1" 50 = .error "Invalid session token" ∧
    sample1.verify_session_token "T1" 50 = true ∧
    secret_message [sample1] "T1" 200 = .ok "Wow we implemented session token!!" ∧
    sample1.verify_session_token "T1" 200 = false := by
  refine ⟨rfl, by decide, rfl, by decide⟩

/-- C2: a successful `users_dao.renew_session(update_token)` stores the freshly
generated session and update tokens (distinct from the previous values, which
holds whenever the random generator does not repeat them), sets
`session_expiration = now + 86400` (24 hours), and the `update_session`
endpoint returns exactly this new triple. -/
theorem renew_session_issues_fresh_triple (store : List User) (utok : String)
    (now : Nat) (t1 t2 : String) (u : User)
    (hfind : users_dao.get_user_by_update_token store utok = some u)
    (h1 : t1 ≠ u.session_token) (h2 : t2 ≠ u.update_token) :
    ∃ store2,
      users_dao.renew_session store utok now t1 t2 =
        some (u.renew_session now t1 t2, store2) ∧
      (u.renew_session now t1 t2).session_token = t1 ∧
      (u.renew_session now t1 t2).session_token ≠ u.session_token ∧
      (u.renew_session now t1 t2).update_token = t2 ∧
      (u.renew_session now t1 t2).update_token ≠ u.update_token ∧
      (u.renew_session now t1 t2).session_expiration = now + 86400 ∧
      (update_session store utok now t1 t2).fst =
        .ok { session_token := t1
              session_expiration := toString (now + 86400)
              update_token := t2 } := by
  refine ⟨update_first (fun v => v.update_token == utok)
    (fun v => v.renew_session now t1 t2) store, ?_, rfl, h1, rfl, h2, rfl, ?_⟩
  · unfold users_dao.renew_session
    rw [hfind]
  · unfold update_session users_dao.renew_session
    rw [hfind]
    rfl

/-- C2 witness: renewing `sample1` via its update token `U1` at time `0` with
fresh tokens `T2`, `U2`. -/
theorem renew_session_issues_fresh_triple_witness :
    ∃ store2,
      users_dao.renew_session [sample1] "U1" 0 "T2" "U2" =
        some (sample1.renew_session 0 "T2" "U2", store2) ∧
      (sample1.renew_session 0 "T2" "U2").session_token = "T2" ∧
      (sample1.renew_session 0 "T2" "U2").session_token ≠ sample1.session_token ∧
      (sample1.renew_session 0 "T2" "U2").update_token = "U2" ∧
      (sample1.renew_session 0 "T2" "U2").update_token ≠ sample1.update_token ∧
      (sample1.renew_session 0 "T2" "U2").session_expiration = 0 + 86400 ∧
      (update_session [sample1] "U1" 0 "T2" "U2").fst =
        .ok { session_token := "T2"
              session_expiration := toString (0 + 86400)
              update_token := "U2" } :=
  renew_session_issues_fresh_triple [sample1] "U1" 0 "T2" "U2" sample1
    (by decide) (by decide) (by decide)

/-- C3: once a renewal keyed on update token `utok` has succeeded (rotating
that row's update token to a fresh `t2 ≠ utok`), a second renewal presenting
the same old value fails: no row matches it any more (update tokens are
pairwise distinct across the store, the spec's uniqueness invariant), so
`users_dao.renew_session` finds nothing and the endpoint answers
`Invalid update token`. -/
theorem renew_invalidates_old_update_token (store : List User) (utok : String)
    (now : Nat) (t1 t2 : String) (u : User) (store2 : List User)
    (hpw : store.Pairwise (fun a b => a.update_token ≠ b.update_token))
    (ht2 : t2 ≠ utok)
    (hfirst : users_dao.renew_session store utok now t1 t2 = some (u, store2)) :
    ∀ (now2 : Nat) (s1 s2 : String),
      users_dao.renew_session store2 utok now2 s1 s2 = none ∧
      (update_session store2 utok now2 s1 s2).fst = .error "Invalid update token" := by
  have hstore2 : store2 = update_first (fun v => v.update_token == utok)
      (fun v => v.renew_session now t1 t2) store := by
    unfold users_dao.renew_session at hfirst
    split at hfirst
    · simp at hfirst
    · simp only [Option.some.injEq, Prod.mk.injEq] at hfirst
      exact hfirst.2.symm
  have hnone : users_dao.get_user_by_update_token store2 utok = none := by
    rw [hstore2]
    exact find?_update_first_renew_none utok t1 t2 now store hpw ht2
  intro now2 s1 s2
  constructor
  · unfold users_dao.renew_session
    rw [hnone]
  · unfold update_session users_dao.renew_session
    rw [hnone]

/-- C3 witness: after renewing `sample1` via `U1` (fresh tokens `T2`, `U2`),
renewing again with `U1` fails. -/
theorem renew_invalidates_old_update_token_witness :
    users_dao.renew_session [sample1.renew_session 0 "T2" "U2"] "U1" 7 "T3" "U3" = none ∧
    (update_session [sample1.renew_session 0 "T2" "U2"] "U1" 7 "T3" "U3").fst =
      .error "Invalid update token" :=
  renew_invalidates_old_update_token [sample1] "U1" 0 "T2" "U2"
    (sample1.renew_session 0 "T2" "U2") [sample1.renew_session 0 "T2" "U2"]
    (by simp) (by decide) (by rfl) 7 "T3" "U3"

/-- C4: a successful `logout` answers the success message and commits exactly
one change: the matched record's `session_expiration` becomes `now` (the record
update is literally `{ u with session_expiration := now }`, so every other
field — in particular `session_token` and `update_token` — keeps its previous
value). -/
theorem logout_sets_expiration_only (store : List User) (t : String) (now : Nat)
    (u : User)
    (hfind : users_dao.get_user_by_session_token store t = some u)
    (hvalid : u.verify_session_token t now = true) :
    logout store t now =
      (.ok "User has successfully logged out",
        update_first (fun v => v.session_token == t)
          (fun v => { v with session_expiration := now }) store) ∧
    users_dao.get_user_by_session_token
        (update_first (fun v => v.session_token == t)
          (fun v => { v with session_expiration := now }) store) t =
      some { u with session_expiration := now } ∧
    ({ u with session_expiration := now } : User).session_expiration = now ∧
    ({ u with session_expiration := now } : User).session_token = u.session_token ∧
    ({ u with session_expiration := now } : User).update_token = u.update_token := by
  have hfind2 : store.find? (fun v => v.session_token == t) = some u := hfind
  have hpu := List.find?_some hfind2
  refine ⟨?_, ?_, rfl, rfl, rfl⟩
  · simp [logout, hfind, hvalid]
  · exact find?_update_first (fun v => v.session_token == t)
      (fun v => { v with session_expiration := now }) store u hfind2 hpu

/-- C4 witness: logging `sample1` out at time `50` while its session (token
`T1`, expiring at `100`) is still valid. -/
theorem logout_sets_expiration_only_witness :
    logout [sample1] "T1" 50 =
      (.ok "User has successfully logged out",
        update_first (fun v => v.session_token == "T1")
          (fun v => { v with session_expiration := 50 }) [sample1]) ∧
    users_dao.get_user_by_session_token
        (update_first (fun v => v.session_token == "T1")
          (fun v => { v with session_expiration := 50 }) [sample1]) "T1" =
      some { sample1 with session_expiration := 50 } ∧
    ({ sample1 with session_expiration := 50 } : User).session_expiration = 50 ∧
    ({ sample1 with session_expiration := 50 } : User).session_token =
      sample1.session_token ∧
    ({ sample1 with session_expiration := 50 } : User).update_token =
      sample1.update_token :=
  logout_sets_expiration_only [sample1] "T1" 50 sample1 rfl (by decide)

/-- C5: if `logout(session_token)` succeeds at time `now`, every later (and
same-instant) `verify_session` call with that token returns nothing: the
committed store holds the record with `session_expiration = now`, and the
strict `now2 < now` comparison fails for every `now2 ≥ now`. -/
theorem logout_then_verify_session_none (store : List User) (t : String) (now : Nat)
    (msg : String) (store2 : List User)
    (hlogout : logout store t now = (.ok msg, store2))
    (now2 : Nat) (hle : now ≤ now2) :
    verify_session store2 t now2 = none := by
  obtain ⟨u, hfind, hv, hmsg, hstore2⟩ := logout_ok_inv store t now msg store2 hlogout
  subst hstore2
  have hfind2 : store.find? (fun v => v.session_token == t) = some u := hfind
  have hpu := List.find?_some hfind2
  have hfu := find?_update_first (fun v => v.session_token == t)
    (fun v => { v with session_expiration := now }) store u hfind2 hpu
  have hexp : ({ u with session_expiration := now } : User).verify_session_token t now2
      = false := by
    unfold User.verify_session_token
    simp [Nat.not_lt.mpr hle]
  unfold verify_session users_dao.get_user_by_session_token
  rw [hfu]
  simp [hexp]

/-- C5 witness: after `sample1` logs out at time `50`, verifying token `T1` at
time `60` returns nothing. -/
theorem logout_then_verify_session_none_witness :
    verify_session [{ sample1 with session_expiration := 50 }] "T1" 60 = none :=
  logout_then_verify_session_none [sample1] "T1" 50
    "User has successfully logged out" [{ sample1 with session_expiration := 50 }]
    (by rfl) 60 (by decide)

/-- C6: a successful `login(email, password)` returns exactly the token triple
already stored on the record found by email — `session_token`,
`session_expiration` (stringified) and `update_token` unchanged — and leaves
the store exactly as it was: login never rotates tokens or extends the
expiration. -/
theorem login_returns_existing_triple (store : List User) (email password : String)
    (r : TokenResponse) (store2 : List User)
    (h : login store email password = (.ok r, store2)) :
    store2 = store ∧ ∃ u, users_dao.get_user_by_email store email = some u ∧
      r.session_token = u.session_token ∧
      r.session_expiration = toString u.session_expiration ∧
      r.update_token = u.update_token := by
  obtain ⟨hs, u, hfind, hvp, hr⟩ := login_ok_inv store email password r store2 h
  exact ⟨hs, u, hfind, by rw [hr], by rw [hr], by rw [hr]⟩

/-- C6 witness: logging `sample1` in with the right password returns the stored
triple `(T1, 100, U1)` and the untouched store. -/
theorem login_returns_existing_triple_witness :
    [sample1] = [sample1] ∧
    ∃ u, users_dao.get_user_by_email [sample1] "a@x.com" = some u ∧
      ("T1" : String) = u.session_token ∧
      ("100" : String) = toString u.session_expiration ∧
      ("U1" : String) = u.update_token :=
  login_returns_existing_triple [sample1] "a@x.com" "pw123456"
    { session_token := "T1", session_expiration := "100", update_token := "U1" }
    [sample1] (by rfl)

/-- C7 counterexample: `verify_password` does *not* report every failure as a
boolean `false`. On a record whose stored digest is malformed, the unguarded
`bcrypt.checkpw` call raises (`ValueError: Invalid salt`) instead of returning
`false`, so the call does not terminate normally with a boolean. -/
theorem verify_password_raises_on_malformed :
    sample_malformed.verify_password "pw123456" = .error "Invalid salt" := rfl

/-- C7 as amended: for every plaintext and every *well-formed* digest,
`verify_password` terminates normally with a boolean; on a malformed digest it
propagates bcrypt's `ValueError("Invalid salt")` rather than returning
`false` — `src/db.py` line 106 calls `bcrypt.checkpw` with no exception
handling. -/
theorem verify_password_boolean_or_invalid_salt :
    (∀ (u : User) (p salt : String) (cost : Nat) (key : String),
      u.password_digest = .valid salt cost key →
      ∃ b, u.verify_password p = .ok b) ∧
    (∀ (u : User) (p raw : String),
      u.password_digest = .malformed raw →
      u.verify_password p = .error "Invalid salt") := by
  constructor
  · intro u p salt cost key hd
    exact ⟨bcrypt_kdf p salt cost == key, by
      unfold User.verify_password bcrypt_checkpw
      rw [hd]⟩
  · intro u p raw hd
    unfold User.verify_password bcrypt_checkpw
    rw [hd]

/-- C7 amended witness: `sample1` has a well-formed digest and verification
returns a boolean; `sample_malformed` triggers the `Invalid salt` error. -/
theorem verify_password_boolean_or_invalid_salt_witness :
    (∃ b, sample1.verify_password "zzz" = .ok b) ∧
    sample_malformed.verify_password "zzz" = .error "Invalid salt" :=
  ⟨verify_password_boolean_or_invalid_salt.1 sample1 "zzz" "SALT" 13
      (bcrypt_kdf "pw123456" "SALT" 13) rfl,
    verify_password_boolean_or_invalid_salt.2 sample_malformed "zzz"
      "plaintext-oops" rfl⟩

/-- The modelled bcrypt key derivation is injective in the password for a fixed
salt and cost (the idealisation of collision resistance). -/
theorem bcrypt_kdf_inj (salt : String) (cost : Nat) (p q : String)
    (h : bcrypt_kdf p salt cost = bcrypt_kdf q salt cost) : p = q := by
  unfold bcrypt_kdf at h
  have h2 := congrArg String.data h
  simp only [String.data_append] at h2
  exact String.ext (List.append_cancel_left h2)

/-- C8: for every password `p`, a user created by `User.__init__` with
password `p` (digest `bcrypt.hashpw(p, gensalt(13))`) passes
`verify_password(p)`, and every distinct password `p2 ≠ p` fails it with the
boolean `false` (certain in the model, where the key derivation is
collision-free; with overwhelming probability for real bcrypt). -/
theorem verify_password_roundtrip (id : Nat) (name username : String)
    (bio : Option String) (contact : String) (host owner available : Bool)
    (email p p2 salt : String) (now : Nat) (tok1 tok2 : String) :
    (User.init id name username bio contact host owner available
        email p salt now tok1 tok2).verify_password p = .ok true ∧
    (p ≠ p2 →
      (User.init id name username bio contact host owner available
          email p salt now tok1 tok2).verify_password p2 = .ok false) := by
  constructor
  · unfold User.init User.renew_session User.verify_password bcrypt_checkpw bcrypt_hashpw
    simp
  · intro hne
    unfold User.init User.renew_session User.verify_password bcrypt_checkpw bcrypt_hashpw
    simp only [Except.ok.injEq]
    rw [beq_eq_false_iff_ne]
    exact fun hc => hne (bcrypt_kdf_inj salt 13 p p2 hc.symm)

/-- C8 witness: a concrete account created with password `pw123456`; checking
`pw123456` yields `true` and checking the distinct `hunter2` yields `false`. -/
theorem verify_password_roundtrip_witness :
    (User.init 7 "Bob" "bob" none "555" false false false
        "b@x.com" "pw123456" "S2" 0 "TA" "UA").verify_password "pw123456" = .ok true ∧
    (User.init 7 "Bob" "bob" none "555" false false false
        "b@x.com" "pw123456" "S2" 0 "TA" "UA").verify_password "hunter2" = .ok false :=
  ⟨(verify_password_roundtrip 7 "Bob" "bob" none "555" false false false
      "b@x.com" "pw123456" "hunter2" "S2" 0 "TA" "UA").1,
    (verify_password_roundtrip 7 "Bob" "bob" none "555" false false false
      "b@x.com" "pw123456" "hunter2" "S2" 0 "TA" "UA").2 (by decide)⟩

/-- C10: `User.serialize` reads only the profile fields — id, name, username,
bio, contact, overall_rating, reviews, host, owner, the two category lists and
available — so two records agreeing on those and differing arbitrarily in
email, password_digest, session_token, session_expiration and update_token
serialize identically. -/
theorem serialize_ignores_credentials (u1 u2 : User)
    (hid : u1.id = u2.id) (hname : u1.name = u2.name)
    (husername : u1.username = u2.username) (hbio : u1.bio = u2.bio)
    (hcontact : u1.contact = u2.contact)
    (hrating : u1.overall_rating = u2.overall_rating)
    (hreviews : u1.reviews = u2.reviews) (hhost : u1.host = u2.host)
    (howner : u1.owner = u2.owner)
    (hch : u1.categories_h = u2.categories_h)
    (hco : u1.categories_o = u2.categories_o)
    (hav : u1.available = u2.available) :
    u1.serialize = u2.serialize := by
  simp only [User.serialize, hid, hname, husername, hbio, hcontact, hrating,
    hreviews, hhost, howner, hch, hco, hav]

/-- C10 witness: `sample1` and a copy with different email, digest, tokens and
expiration serialize to the same JSON. -/
theorem serialize_ignores_credentials_witness :
    sample1.serialize =
      ({ sample1 with
          email := "other@y.org"
          password_digest := .malformed "x"
          session_token := "TX"
          session_expiration := 999999
          update_token := "UX" } : User).serialize :=
  serialize_ignores_credentials sample1
    { sample1 with
      email := "other@y.org"
      password_digest := .malformed "x"
      session_token := "TX"
      session_expiration := 999999
      update_token := "UX" }
    rfl rfl rfl rfl rfl rfl rfl rfl rfl rfl rfl rfl

/-- C9 counterexample: `login` *does* expose the record's `update_token`. The
success response of `src/app.py` lines 370-376 carries the cleartext
`update_token` of the record that was logged in, here `U1`. -/
theorem login_exposes_update_token :
    (login [sample1] "a@x.com" "pw123456").fst =
      .ok { session_token := "T1", session_expiration := "100", update_token := "U1" } ∧
    sample1.update_token = "U1" :=
  ⟨rfl, rfl⟩

/-- The user created by the witness registration below. -/
def regUser : User :=
  User.init 1 "n" "u" none "c" false false false "e@x.com" "pw" "S" 0 "T2" "U2"

/-- C9 as amended: registration, renewal *and login* all expose the record's
cleartext `update_token` in their success responses (`src/app.py` lines
343-350, 394-400 and 370-376 respectively); only the session-verifying secret
endpoint and `logout` never do — their success payloads are fixed constant
messages independent of the record. -/
theorem update_token_exposure_by_endpoint :
    (∀ (store : List User) (id : Nat) (name username : String)
        (bio : Option String) (contact : String) (host owner available : Bool)
        (email password salt : String) (now : Nat) (tok1 tok2 : String)
        (r : RegisterResponse) (store2 : List User),
      register_account store id name username bio contact host owner available
          email password salt now tok1 tok2 = .ok (r, store2) →
      r.update_token = tok2) ∧
    (∀ (store : List User) (email password : String) (r : TokenResponse)
        (store2 : List User),
      login store email password = (.ok r, store2) →
      ∃ u, users_dao.get_user_by_email store email = some u ∧
        r.update_token = u.update_token) ∧
    (∀ (store : List User) (utok : String) (now : Nat) (t1 t2 : String)
        (r : TokenResponse) (store2 : List User),
      update_session store utok now t1 t2 = (.ok r, store2) →
      r.update_token = t2) ∧
    (∀ (store : List User) (t : String) (now : Nat) (msg : String)
        (store2 : List User),
      logout store t now = (.ok msg, store2) →
      msg = "User has successfully logged out") ∧
    (∀ (store : List User) (t : String) (now : Nat) (msg : String),
      secret_message store t now = .ok msg →
      msg = "Wow we implemented session token!!") := by
  refine ⟨?_, ?_, ?_, ?_, ?_⟩
  · intro store id name username bio contact host owner available email password
      salt now tok1 tok2 r store2 h
    unfold register_account users_dao.create_user at h
    cases hfind : users_dao.get_user_by_email store email with
    | some u => rw [hfind] at h; simp at h
    | none =>
      rw [hfind] at h
      simp only [Except.ok.injEq, Prod.mk.injEq] at h
      rw [← h.1]
      rfl
  · intro store email password r store2 h
    obtain ⟨hs, u, hfind, hvp, hr⟩ := login_ok_inv store email password r store2 h
    exact ⟨u, hfind, by rw [hr]⟩
  · intro store utok now t1 t2 r store2 h
    unfold update_session at h
    split at h
    · simp at h
    next u store3 heq =>
      simp only [Prod.mk.injEq, Except.ok.injEq] at h
      unfold users_dao.renew_session at heq
      split at heq
      · simp at heq
      next v hfind =>
        simp only [Option.some.injEq, Prod.mk.injEq] at heq
        rw [← h.1, ← heq.1]
        rfl
  · intro store t now msg store2 h
    obtain ⟨u, hfind, hv, hmsg, hstore2⟩ := logout_ok_inv store t now msg store2 h
    exact hmsg
  · intro store t now msg h
    unfold secret_message at h
    split at h
    · simp at h
    next u heq =>
      split at h
      · simp at h
      · simp only [Except.ok.injEq] at h
        exact h.symm

/-- C9 amended witness: concrete success calls of all five endpoints —
registration and renewal return the fresh update token, login returns the
stored one, logout and the secret endpoint return their constant messages. -/
theorem update_token_exposure_by_endpoint_witness :
    regUser.update_token = "U2" ∧
    (∃ u, users_dao.get_user_by_email [sample1] "a@x.com" = some u ∧
      ("U1" : String) = u.update_token) ∧
    (sample1.renew_session 0 "T2" "U2").update_token = "U2" ∧
    ("User has successfully logged out" : String) =
      "User has successfully logged out" ∧
    ("Wow we implemented session token!!" : String) =
      "Wow we implemented session token!!" :=
  ⟨update_token_exposure_by_endpoint.1 [] 1 "n" "u" none "c" false false false
      "e@x.com" "pw" "S" 0 "T2" "U2"
      { user := regUser.serialize
        session_token := regUser.session_token
        session_expiration := toString regUser.session_expiration
        update_token := regUser.update_token } [regUser] rfl,
    update_token_exposure_by_endpoint.2.1 [sample1] "a@x.com" "pw123456"
      { session_token := "T1", session_expiration := "100", update_token := "U1" }
      [sample1] rfl,
    update_token_exposure_by_endpoint.2.2.1 [sample1] "U1" 0 "T2" "U2"
      { session_token := (sample1.renew_session 0 "T2" "U2").session_token
        session_expiration := toString (sample1.renew_session 0 "T2" "U2").session_expiration
        update_token := (sample1.renew_session 0 "T2" "U2").update_token }
      (update_first (fun v => v.update_token == "U1")
        (fun v => v.renew_session 0 "T2" "U2") [sample1]) rfl,
    update_token_exposure_by_endpoint.2.2.2.1 [sample1] "T1" 50
      "User has successfully logged out"
      (update_first (fun v => v.session_token == "T1")
        (fun v => { v with session_expiration := 50 }) [sample1]) rfl,
    update_token_exposure_by_endpoint.2.2.2.2 [sample1] "T1" 200
      "Wow we implemented session token!!" rfl⟩
